import Mathlib

/-!
Shallow embedding of the device-registry core of the DrMem control system
(`drmemd/src/core.rs`).  The registry actor owns a table from device names
to channel endpoints; drivers register read-only or read-write devices by
sending requests on an inbound channel and receive exactly one reply each
on a one-shot reply channel.

Channels are modelled by the identity of the underlying channel (a number
drawn from an allocator that is threaded through every operation) together
with the capacity the code requests.  Cloning a send endpoint yields a
handle to the same channel, so `clone` is the identity on the model.
-/

set_option autoImplicit false

namespace DrMem

/-- The one error the core can produce (`DrMemError::DeviceDefined` in
`drmem_types`); the remaining variants of the Rust enum are never built by
this file's code, so they are omitted from the model. -/
inductive DrMemError where
  | DeviceDefined (name : String)
deriving DecidableEq, Repr

/-- `Result<T>` from `drmem_api`: `Result<T, DrMemError>`. -/
abbrev DResult (T : Type) := Except DrMemError T

instance {E T : Type} [DecidableEq E] [DecidableEq T] :
    DecidableEq (Except E T) := fun a b =>
  match a, b with
  | .ok x, .ok y =>
      if h : x = y then .isTrue (by rw [h]) else
        .isFalse (fun hc => h (Except.ok.inj hc))
  | .ok _, .error _ => .isFalse (fun hc => Except.noConfusion hc)
  | .error _, .ok _ => .isFalse (fun hc => Except.noConfusion hc)
  | .error e, .error f =>
      if h : e = f then .isTrue (by rw [h]) else
        .isFalse (fun hc => h (Except.error.inj hc))

/-- Send endpoint of a `tokio::sync::broadcast` channel carrying device
values (`driver::TxDeviceValue`). -/
structure TxDeviceValue where
  chanId : Nat
  capacity : Nat
deriving DecidableEq, Repr

/-- Send endpoint of a bounded `tokio::sync::mpsc` channel carrying
settings (`driver::TxDeviceSetting`). -/
structure TxDeviceSetting where
  chanId : Nat
  capacity : Nat
deriving DecidableEq, Repr

/-- Receive endpoint of a bounded `tokio::sync::mpsc` channel carrying
settings (`driver::RxDeviceSetting`). -/
structure RxDeviceSetting where
  chanId : Nat
  capacity : Nat
deriving DecidableEq, Repr

/-- `Sender::clone`: a clone is a handle to the same channel. -/
def TxDeviceValue.clone (tx : TxDeviceValue) : TxDeviceValue := tx

/-- Allocator of fresh channel identities; each channel created by the
code gets the next unused identity. -/
structure ChanAlloc where
  next : Nat
deriving DecidableEq, Repr

/-- `broadcast::channel(cap)`: a fresh broadcast channel; the model keeps
the send endpoint (the receive half is dropped by the code: `let (tx, _)`). -/
def broadcast_channel (cap : Nat) (a : ChanAlloc) : TxDeviceValue × ChanAlloc :=
  (⟨a.next, cap⟩, ⟨a.next + 1⟩)

/-- `mpsc::channel(cap)`: a fresh bounded channel; both endpoints refer to
the same channel identity. -/
def mpsc_channel (cap : Nat) (a : ChanAlloc) :
    (TxDeviceSetting × RxDeviceSetting) × ChanAlloc :=
  ((⟨a.next, cap⟩, ⟨a.next, cap⟩), ⟨a.next + 1⟩)

/-- A table value: the broadcast send handle plus, for read-write devices
only, the send handle for settings. -/
abbrev Entry := TxDeviceValue × Option TxDeviceSetting

/-- `struct DeviceMap(HashMap<String, Entry>)`.  The hash map is modelled
as an association list with at most one binding per key (the code only
ever inserts through a vacant `Entry`, so keys stay unique). -/
structure DeviceMap where
  entries : List (String × Entry)
deriving DecidableEq, Repr

namespace DeviceMap

/-- `DeviceMap::new`. -/
def new : DeviceMap := ⟨[]⟩

/-- Key lookup of the hash map, by exact string equality. -/
def findList : List (String × Entry) → String → Option Entry
  | [], _ => none
  | (k, v) :: rest, name => if k = name then some v else findList rest name

/-- Lookup of a device name in the table. -/
def find? (m : DeviceMap) (name : String) : Option Entry :=
  findList m.entries name

/-- Whether a device name is a key of the table. -/
def memKey (m : DeviceMap) (name : String) : Bool :=
  (m.find? name).isSome

/-- `DeviceMap::insert_ro_device`: if the entry for `device_name` is
vacant, create a broadcast channel of capacity 20, insert the cloned send
endpoint paired with `None`, and return the send endpoint; otherwise
return `None` and leave everything untouched. -/
def insert_ro_device (m : DeviceMap) (a : ChanAlloc) (device_name : String) :
    Option TxDeviceValue × DeviceMap × ChanAlloc :=
  match m.find? device_name with
  | some _ => (none, m, a)
  | none =>
      let p := broadcast_channel 20 a
      let tx := p.1
      (some tx, ⟨m.entries ++ [(device_name, (tx.clone, none))]⟩, p.2)

/-- `DeviceMap::insert_rw_device`: if the entry for `device_name` is
vacant, create a broadcast channel of capacity 20 for values and a bounded
channel of capacity 20 for settings, insert the cloned value send endpoint
paired with `Some` of the setting send endpoint, and return the value send
endpoint with the setting receive endpoint; otherwise return `None`. -/
def insert_rw_device (m : DeviceMap) (a : ChanAlloc) (device_name : String) :
    Option (TxDeviceValue × RxDeviceSetting) × DeviceMap × ChanAlloc :=
  match m.find? device_name with
  | some _ => (none, m, a)
  | none =>
      let pv := broadcast_channel 20 a
      let tx_val := pv.1
      let ps := mpsc_channel 20 pv.2
      let tx_setting := ps.1.1
      let rx_setting := ps.1.2
      (some (tx_val, rx_setting),
       ⟨m.entries ++ [(device_name, (tx_val.clone, some tx_setting))]⟩,
       ps.2)

end DeviceMap

/-- One-shot reply channel (`tokio::sync::oneshot::Sender`) carried in a
request.  `alive` says whether a receiver is still waiting; sending on a
dead channel fails (the driver exited before the reply could be sent). -/
structure OneshotSender where
  alive : Bool
deriving DecidableEq, Repr

/-- `driver::Request`: the inbound protocol the actor consumes. -/
inductive Request where
  | AddReadonlyDevice (dev_name : String) (rpy_chan : OneshotSender)
  | AddReadWriteDevice (dev_name : String) (rpy_chan : OneshotSender)
deriving DecidableEq, Repr

/-- The device name a request asks to register. -/
def Request.dev_name : Request → String
  | .AddReadonlyDevice n _ => n
  | .AddReadWriteDevice n _ => n

/-- The reply channel carried by a request. -/
def Request.rpy_chan : Request → OneshotSender
  | .AddReadonlyDevice _ c => c
  | .AddReadWriteDevice _ c => c

/-- The same request with its reply channel replaced. -/
def Request.withChan : Request → OneshotSender → Request
  | .AddReadonlyDevice n _, c => .AddReadonlyDevice n c
  | .AddReadWriteDevice n _, c => .AddReadWriteDevice n c

/-- A value the actor sends back on a reply channel: either the reply to a
read-only registration or the reply to a read-write one. -/
inductive Reply where
  | ro (r : DResult TxDeviceValue)
  | rw (r : DResult (TxDeviceValue × RxDeviceSetting))
deriving DecidableEq, Repr

/-- Whether a reply reports a successful registration. -/
def Reply.isSuccess : Reply → Bool
  | .ro (.ok _) => true
  | .rw (.ok _) => true
  | _ => false

/-- The device-already-defined error reply matching a request's kind. -/
def Request.errorReply (req : Request) (n : String) : Reply :=
  match req with
  | .AddReadonlyDevice _ _ => .ro (.error (.DeviceDefined n))
  | .AddReadWriteDevice _ _ => .rw (.error (.DeviceDefined n))

/-- Effect of one call to `State::send_reply`: the list of send attempts
made on the one-shot channel (the code makes exactly one), whether the
attempt delivered, and whether the failure warning was logged. -/
structure ReplyEffect (T : Type) where
  sent : List (DResult T)
  delivered : Bool
  warned : Bool
deriving DecidableEq, Repr

/-- `struct State { devices: DeviceMap }`. -/
structure State where
  devices : DeviceMap
deriving DecidableEq, Repr

namespace State

/-- `State::create`. -/
def create : State := { devices := DeviceMap.new }

/-- `State::send_reply`: turn the optional registration result into a
`Result` (absent becomes `DeviceDefined(dev_name)`), attempt exactly one
send on the reply channel, and warn — nothing more — if the send fails. -/
def send_reply {T : Type} (dev_name : String) (rpy_chan : OneshotSender)
    (val : Option T) : ReplyEffect T :=
  let result : DResult T :=
    match val with
    | some v => .ok v
    | none => .error (.DeviceDefined dev_name)
  { sent := [result], delivered := rpy_chan.alive, warned := !rpy_chan.alive }

/-- Everything one call to `State::handle_driver_request` produces: the
new actor state, the channel allocator afterwards, the replies attempted
on the request's one-shot channel, and the delivery/warning flags. -/
structure HandleResult where
  state : State
  alloc : ChanAlloc
  replies : List Reply
  delivered : Bool
  warned : Bool
deriving DecidableEq, Repr

/-- `State::handle_driver_request`: dispatch on the request kind, run the
matching table operation, and send the reply. -/
def handle_driver_request (s : State) (a : ChanAlloc) (req : Request) :
    HandleResult :=
  match req with
  | .AddReadonlyDevice dev_name rpy_chan =>
      let r := s.devices.insert_ro_device a dev_name
      let eff := send_reply dev_name rpy_chan r.1
      { state := { devices := r.2.1 }, alloc := r.2.2,
        replies := eff.sent.map Reply.ro,
        delivered := eff.delivered, warned := eff.warned }
  | .AddReadWriteDevice dev_name rpy_chan =>
      let r := s.devices.insert_rw_device a dev_name
      let eff := send_reply dev_name rpy_chan r.1
      { state := { devices := r.2.1 }, alloc := r.2.2,
        replies := eff.sent.map Reply.rw,
        delivered := eff.delivered, warned := eff.warned }

/-- What one receive on the inbound request channel can observe: either a
request, or the closed condition — no pending request and no remaining
senders — which disables the `Some(req)` arm of the `select!`. -/
inductive RecvEvent where
  | received (req : Request)
  | closed
deriving DecidableEq, Repr

/-- Outcome of one iteration of the `loop` in `State::run`. -/
inductive StepOutcome where
  | running (state : State) (alloc : ChanAlloc) (replies : List Reply)
  | terminated (res : DResult Unit)
deriving DecidableEq, Repr

/-- One iteration of the run loop: a received request is handled and the
loop continues; the closed condition takes the `else` arm, which logs and
returns `Ok(())`. -/
def run_step (s : State) (a : ChanAlloc) (ev : RecvEvent) : StepOutcome :=
  match ev with
  | .received req =>
      let h := s.handle_driver_request a req
      .running h.state h.alloc h.replies
  | .closed => .terminated (.ok ())

/-- `State::run` over the whole life of the inbound channel: the channel
delivers the listed requests in order and then reports closed.  Returns
the final state, the final allocator, the reply attempts in order, and the
result the actor returns. -/
def run (s : State) (a : ChanAlloc) :
    List Request → State × ChanAlloc × List Reply × DResult Unit
  | [] => (s, a, [], .ok ())
  | req :: rest =>
      let h := s.handle_driver_request a req
      let r := run h.state h.alloc rest
      (r.1, r.2.1, h.replies ++ r.2.2.1, r.2.2.2)

end State

/-- The reply trace of a run: one entry per send attempt, in order. -/
def replyTrace (s : State) (a : ChanAlloc) (reqs : List Request) : List Reply :=
  (State.run s a reqs).2.2.1

/-- Concrete device names used to exercise the theorems. -/
def nm1 : String := "furnace.temp"

def nm2 : String := "furnace.setpoint"

def emptyName : String := ""

/-! ### Lemmas about lookup in the association-list model of the table -/

theorem findList_append_of_some (l l2 : List (String × Entry)) (k : String)
    (e : Entry) (h : DeviceMap.findList l k = some e) :
    DeviceMap.findList (l ++ l2) k = some e := by
  induction l with
  | nil => cases h
  | cons p rest ih =>
      by_cases hk : p.1 = k
      · simpa [DeviceMap.findList, hk] using h
      · rw [DeviceMap.findList] at h
        simp only [hk, if_false] at h
        simpa [DeviceMap.findList, hk] using ih h

theorem findList_append_self (l : List (String × Entry)) (name : String)
    (e : Entry) (h : DeviceMap.findList l name = none) :
    DeviceMap.findList (l ++ [(name, e)]) name = some e := by
  induction l with
  | nil => simp [DeviceMap.findList]
  | cons p rest ih =>
      by_cases hk : p.1 = name
      · rw [DeviceMap.findList] at h
        simp [hk] at h
      · rw [DeviceMap.findList] at h
        simp only [hk, if_false] at h
        simpa [DeviceMap.findList, hk] using ih h

theorem findList_append_other (l : List (String × Entry)) (name k : String)
    (e : Entry) (hk : k ≠ name) :
    DeviceMap.findList (l ++ [(name, e)]) k = DeviceMap.findList l k := by
  induction l with
  | nil => simp [DeviceMap.findList, Ne.symm hk]
  | cons p rest ih =>
      by_cases hp : p.1 = k
      · simp [DeviceMap.findList, hp]
      · simpa [DeviceMap.findList, hp] using ih

/-! ### C2: read-only registration -/

/-- C2: `insert_ro_device` returns absent when the name is already a key;
otherwise it allocates a fresh broadcast channel of capacity 20, inserts
`(send endpoint clone, none)` under the name, and returns the send
endpoint of that same channel. -/
theorem insert_ro_device_spec (m : DeviceMap) (a : ChanAlloc) (name : String) :
    ((m.find? name).isSome = true → m.insert_ro_device a name = (none, m, a))
    ∧ (m.find? name = none →
        ∃ tx : TxDeviceValue,
          (m.insert_ro_device a name).1 = some tx
          ∧ tx.capacity = 20
          ∧ tx.chanId = a.next
          ∧ (m.insert_ro_device a name).2.1.entries
              = m.entries ++ [(name, (tx.clone, none))]
          ∧ (m.insert_ro_device a name).2.1.find? name = some (tx.clone, none)
          ∧ (m.insert_ro_device a name).2.2 = ⟨a.next + 1⟩) := by
  cases hf : m.find? name with
  | some e =>
      constructor
      · intro _
        simp [DeviceMap.insert_ro_device, hf]
      · intro hn
        exact absurd hn (by simp)
  | none =>
      constructor
      · intro hs
        exact absurd hs (by simp)
      · intro _
        refine ⟨⟨a.next, 20⟩, ?_, rfl, rfl, ?_, ?_, ?_⟩
        · simp [DeviceMap.insert_ro_device, hf, broadcast_channel]
        · simp [DeviceMap.insert_ro_device, hf, broadcast_channel,
            TxDeviceValue.clone]
        · have hent : (m.insert_ro_device a name).2.1.entries
              = m.entries
                ++ [(name, ((⟨a.next, 20⟩ : TxDeviceValue).clone, none))] := by
            simp [DeviceMap.insert_ro_device, hf, broadcast_channel,
              TxDeviceValue.clone]
          rw [DeviceMap.find?, hent]
          exact findList_append_self m.entries name _ hf
        · simp [DeviceMap.insert_ro_device, hf, broadcast_channel]

theorem insert_ro_device_spec_witness :
    (DeviceMap.new.find? nm1 = none)
    ∧ ∃ tx : TxDeviceValue,
        (DeviceMap.new.insert_ro_device ⟨0⟩ nm1).1 = some tx
        ∧ tx.capacity = 20
        ∧ tx.chanId = (0 : Nat)
        ∧ (DeviceMap.new.insert_ro_device ⟨0⟩ nm1).2.1.entries
            = DeviceMap.new.entries ++ [(nm1, (tx.clone, none))]
        ∧ (DeviceMap.new.insert_ro_device ⟨0⟩ nm1).2.1.find? nm1
            = some (tx.clone, none)
        ∧ (DeviceMap.new.insert_ro_device ⟨0⟩ nm1).2.2 = ⟨0 + 1⟩ :=
  ⟨rfl, (insert_ro_device_spec DeviceMap.new ⟨0⟩ nm1).2 rfl⟩

/-! ### C3: read-write registration -/

/-- C3: `insert_rw_device` returns absent when the name is already a key;
otherwise it allocates a broadcast channel of capacity 20 for values and a
bounded channel of capacity 20 for settings, inserts
`(value send endpoint clone, some (setting send endpoint))` under the
name, and returns the value send endpoint together with the setting
receive endpoint of the same setting channel. -/
theorem insert_rw_device_spec (m : DeviceMap) (a : ChanAlloc) (name : String) :
    ((m.find? name).isSome = true → m.insert_rw_device a name = (none, m, a))
    ∧ (m.find? name = none →
        ∃ (tx_val : TxDeviceValue) (tx_setting : TxDeviceSetting)
          (rx_setting : RxDeviceSetting),
          (m.insert_rw_device a name).1 = some (tx_val, rx_setting)
          ∧ tx_val.capacity = 20
          ∧ tx_setting.capacity = 20
          ∧ rx_setting.capacity = 20
          ∧ tx_setting.chanId = rx_setting.chanId
          ∧ (m.insert_rw_device a name).2.1.entries
              = m.entries ++ [(name, (tx_val.clone, some tx_setting))]
          ∧ (m.insert_rw_device a name).2.1.find? name
              = some (tx_val.clone, some tx_setting)) := by
  cases hf : m.find? name with
  | some e =>
      constructor
      · intro _
        simp [DeviceMap.insert_rw_device, hf]
      · intro hn
        exact absurd hn (by simp)
  | none =>
      constructor
      · intro hs
        exact absurd hs (by simp)
      · intro _
        refine ⟨⟨a.next, 20⟩, ⟨a.next + 1, 20⟩, ⟨a.next + 1, 20⟩,
          ?_, rfl, rfl, rfl, rfl, ?_, ?_⟩
        · simp [DeviceMap.insert_rw_device, hf, broadcast_channel,
            mpsc_channel]
        · simp [DeviceMap.insert_rw_device, hf, broadcast_channel,
            mpsc_channel, TxDeviceValue.clone]
        · have hent : (m.insert_rw_device a name).2.1.entries
              = m.entries
                ++ [(name, ((⟨a.next, 20⟩ : TxDeviceValue).clone,
                      some (⟨a.next + 1, 20⟩ : TxDeviceSetting)))] := by
            simp [DeviceMap.insert_rw_device, hf, broadcast_channel,
              mpsc_channel, TxDeviceValue.clone]
          rw [DeviceMap.find?, hent]
          exact findList_append_self m.entries name _ hf

theorem insert_rw_device_spec_witness :
    (DeviceMap.new.find? nm2 = none)
    ∧ ∃ (tx_val : TxDeviceValue) (tx_setting : TxDeviceSetting)
        (rx_setting : RxDeviceSetting),
        (DeviceMap.new.insert_rw_device ⟨0⟩ nm2).1 = some (tx_val, rx_setting)
        ∧ tx_val.capacity = 20
        ∧ tx_setting.capacity = 20
        ∧ rx_setting.capacity = 20
        ∧ tx_setting.chanId = rx_setting.chanId
        ∧ (DeviceMap.new.insert_rw_device ⟨0⟩ nm2).2.1.entries
            = DeviceMap.new.entries ++ [(nm2, (tx_val.clone, some tx_setting))]
        ∧ (DeviceMap.new.insert_rw_device ⟨0⟩ nm2).2.1.find? nm2
            = some (tx_val.clone, some tx_setting) :=
  ⟨rfl, (insert_rw_device_spec DeviceMap.new ⟨0⟩ nm2).2 rfl⟩

/-! ### C4: a duplicate registration attempt changes nothing -/

/-- A table holding `nm1` as a read-only device, used to exercise the
duplicate branches. -/
def m1 : DeviceMap := (DeviceMap.new.insert_ro_device ⟨0⟩ nm1).2.1

/-- C4: when the name is already a key, both registration operations
return absent, leave the table (hence the existing entry for the name,
and every other entry) exactly as it was, and allocate no channel. -/
theorem failed_registration_no_change (m : DeviceMap) (a : ChanAlloc)
    (name : String) (h : (m.find? name).isSome = true) :
    (m.insert_ro_device a name).1 = none
    ∧ (m.insert_ro_device a name).2.1 = m
    ∧ (m.insert_ro_device a name).2.2 = a
    ∧ (m.insert_rw_device a name).1 = none
    ∧ (m.insert_rw_device a name).2.1 = m
    ∧ (m.insert_rw_device a name).2.2 = a
    ∧ (∀ k, (m.insert_ro_device a name).2.1.find? k = m.find? k)
    ∧ (∀ k, (m.insert_rw_device a name).2.1.find? k = m.find? k) := by
  cases hf : m.find? name with
  | none => rw [hf] at h; cases h
  | some e =>
      refine ⟨?_, ?_, ?_, ?_, ?_, ?_, fun k => ?_, fun k => ?_⟩ <;>
        simp [DeviceMap.insert_ro_device, DeviceMap.insert_rw_device, hf]

theorem failed_registration_no_change_witness :
    ((m1.find? nm1).isSome = true)
    ∧ ((m1.insert_ro_device ⟨1⟩ nm1).1 = none
        ∧ (m1.insert_ro_device ⟨1⟩ nm1).2.1 = m1
        ∧ (m1.insert_ro_device ⟨1⟩ nm1).2.2 = ⟨1⟩
        ∧ (m1.insert_rw_device ⟨1⟩ nm1).1 = none
        ∧ (m1.insert_rw_device ⟨1⟩ nm1).2.1 = m1
        ∧ (m1.insert_rw_device ⟨1⟩ nm1).2.2 = ⟨1⟩
        ∧ (∀ k, (m1.insert_ro_device ⟨1⟩ nm1).2.1.find? k = m1.find? k)
        ∧ (∀ k, (m1.insert_rw_device ⟨1⟩ nm1).2.1.find? k = m1.find? k)) :=
  ⟨rfl, failed_registration_no_change m1 ⟨1⟩ nm1 rfl⟩

/-! ### Helper lemmas shared by the theorems about successful insertion -/

theorem insert_ro_success_find (m : DeviceMap) (a : ChanAlloc) (name : String)
    (tx : TxDeviceValue) (htx : (m.insert_ro_device a name).1 = some tx) :
    (m.insert_ro_device a name).2.1.find? name = some (tx, none) := by
  cases hf : m.find? name with
  | some e0 => rw [DeviceMap.insert_ro_device, hf] at htx; cases htx
  | none =>
      rw [DeviceMap.insert_ro_device, hf] at htx
      simp only [broadcast_channel] at htx
      cases htx
      have hent : (m.insert_ro_device a name).2.1.entries
          = m.entries
            ++ [(name, ((⟨a.next, 20⟩ : TxDeviceValue).clone, none))] := by
        simp [DeviceMap.insert_ro_device, hf, broadcast_channel]
      rw [DeviceMap.find?, hent]
      exact findList_append_self m.entries name _ hf

theorem insert_rw_success_find (m : DeviceMap) (a : ChanAlloc) (name : String)
    (p : TxDeviceValue × RxDeviceSetting)
    (hp : (m.insert_rw_device a name).1 = some p) :
    ∃ tx_setting : TxDeviceSetting,
      (m.insert_rw_device a name).2.1.find? name = some (p.1, some tx_setting)
      ∧ tx_setting.chanId = p.2.chanId := by
  cases hf : m.find? name with
  | some e0 => rw [DeviceMap.insert_rw_device, hf] at hp; cases hp
  | none =>
      rw [DeviceMap.insert_rw_device, hf] at hp
      simp only [broadcast_channel, mpsc_channel] at hp
      cases hp
      refine ⟨⟨a.next + 1, 20⟩, ?_, rfl⟩
      have hent : (m.insert_rw_device a name).2.1.entries
          = m.entries
            ++ [(name, ((⟨a.next, 20⟩ : TxDeviceValue).clone,
                  some (⟨a.next + 1, 20⟩ : TxDeviceSetting)))] := by
        simp [DeviceMap.insert_rw_device, hf, broadcast_channel, mpsc_channel]
      rw [DeviceMap.find?, hent]
      exact findList_append_self m.entries name _ hf

theorem insert_ro_preserves (m : DeviceMap) (a : ChanAlloc) (name : String)
    (k : String) (e : Entry) (hk : m.find? k = some e) :
    (m.insert_ro_device a name).2.1.find? k = some e := by
  cases hf : m.find? name with
  | some e0 => simpa [DeviceMap.insert_ro_device, hf] using hk
  | none =>
      have hent : (m.insert_ro_device a name).2.1.entries
          = m.entries
            ++ [(name, ((⟨a.next, 20⟩ : TxDeviceValue).clone, none))] := by
        simp [DeviceMap.insert_ro_device, hf, broadcast_channel]
      rw [DeviceMap.find?, hent]
      exact findList_append_of_some m.entries _ k e hk

theorem insert_rw_preserves (m : DeviceMap) (a : ChanAlloc) (name : String)
    (k : String) (e : Entry) (hk : m.find? k = some e) :
    (m.insert_rw_device a name).2.1.find? k = some e := by
  cases hf : m.find? name with
  | some e0 => simpa [DeviceMap.insert_rw_device, hf] using hk
  | none =>
      have hent : (m.insert_rw_device a name).2.1.entries
          = m.entries
            ++ [(name, ((⟨a.next, 20⟩ : TxDeviceValue).clone,
                  some (⟨a.next + 1, 20⟩ : TxDeviceSetting)))] := by
        simp [DeviceMap.insert_rw_device, hf, broadcast_channel, mpsc_channel]
      rw [DeviceMap.find?, hent]
      exact findList_append_of_some m.entries _ k e hk

/-! ### C5: kind exclusivity -/

/-- C5: a successful read-only registration stores an entry whose setting
half is `none`; a successful read-write registration stores `some` setting
send endpoint for the same channel as the returned receive endpoint and
returns both endpoints as one pair; and neither operation ever modifies an
entry that already exists, so a read-only entry never gains a setting
endpoint. -/
theorem kind_exclusivity (m : DeviceMap) (a : ChanAlloc) (name : String) :
    (∀ tx, (m.insert_ro_device a name).1 = some tx →
        (m.insert_ro_device a name).2.1.find? name = some (tx, none))
    ∧ (∀ p : TxDeviceValue × RxDeviceSetting,
        (m.insert_rw_device a name).1 = some p →
          ∃ tx_setting : TxDeviceSetting,
            (m.insert_rw_device a name).2.1.find? name
              = some (p.1, some tx_setting)
            ∧ tx_setting.chanId = p.2.chanId)
    ∧ (∀ k e, m.find? k = some e →
        (m.insert_ro_device a name).2.1.find? k = some e)
    ∧ (∀ k e, m.find? k = some e →
        (m.insert_rw_device a name).2.1.find? k = some e) :=
  ⟨fun tx htx => insert_ro_success_find m a name tx htx,
   fun p hp => insert_rw_success_find m a name p hp,
   fun k e hk => insert_ro_preserves m a name k e hk,
   fun k e hk => insert_rw_preserves m a name k e hk⟩

theorem kind_exclusivity_witness :
    ((m1.insert_rw_device ⟨1⟩ nm2).1 = some (⟨1, 20⟩, ⟨2, 20⟩))
    ∧ (∃ tx_setting : TxDeviceSetting,
        (m1.insert_rw_device ⟨1⟩ nm2).2.1.find? nm2
          = some (⟨1, 20⟩, some tx_setting)
        ∧ tx_setting.chanId
            = ((⟨2, 20⟩ : RxDeviceSetting)).chanId)
    ∧ (m1.find? nm1 = some (⟨0, 20⟩, none))
    ∧ ((m1.insert_rw_device ⟨1⟩ nm2).2.1.find? nm1 = some (⟨0, 20⟩, none)) :=
  ⟨rfl,
   (kind_exclusivity m1 ⟨1⟩ nm2).2.1 (⟨1, 20⟩, ⟨2, 20⟩) rfl,
   rfl,
   (kind_exclusivity m1 ⟨1⟩ nm2).2.2.2 nm1 (⟨0, 20⟩, none) rfl⟩

/-! ### C6: the table keeps its own handle to the value channel -/

/-- C6: on every successful registration, the value send endpoint stored
in the table is the clone of the value send endpoint handed back, so both
are handles to the same broadcast channel. -/
theorem registry_retains_clone (m : DeviceMap) (a : ChanAlloc)
    (name : String) :
    (∀ tx, (m.insert_ro_device a name).1 = some tx →
        ∃ (stored : TxDeviceValue) (o : Option TxDeviceSetting),
          (m.insert_ro_device a name).2.1.find? name = some (stored, o)
          ∧ stored = tx.clone
          ∧ stored.chanId = tx.chanId)
    ∧ (∀ p : TxDeviceValue × RxDeviceSetting,
        (m.insert_rw_device a name).1 = some p →
          ∃ (stored : TxDeviceValue) (o : Option TxDeviceSetting),
            (m.insert_rw_device a name).2.1.find? name = some (stored, o)
            ∧ stored = p.1.clone
            ∧ stored.chanId = p.1.chanId) := by
  constructor
  · intro tx htx
    exact ⟨tx, none, insert_ro_success_find m a name tx htx, rfl, rfl⟩
  · intro p hp
    obtain ⟨txs, hfind, _⟩ := insert_rw_success_find m a name p hp
    exact ⟨p.1, some txs, hfind, rfl, rfl⟩

theorem registry_retains_clone_witness :
    ((DeviceMap.new.insert_ro_device ⟨0⟩ nm1).1 = some ⟨0, 20⟩)
    ∧ ∃ (stored : TxDeviceValue) (o : Option TxDeviceSetting),
        (DeviceMap.new.insert_ro_device ⟨0⟩ nm1).2.1.find? nm1
          = some (stored, o)
        ∧ stored = TxDeviceValue.clone ⟨0, 20⟩
        ∧ stored.chanId = ((⟨0, 20⟩ : TxDeviceValue)).chanId :=
  ⟨rfl, (registry_retains_clone DeviceMap.new ⟨0⟩ nm1).1 ⟨0, 20⟩ rfl⟩

/-! ### Helper lemmas about one call to `handle_driver_request` -/

theorem handle_replies_singleton (s : State) (a : ChanAlloc) (req : Request) :
    ∃ p, (s.handle_driver_request a req).replies = [p] := by
  cases req <;> exact ⟨_, rfl⟩

theorem handle_replies_length (s : State) (a : ChanAlloc) (req : Request) :
    (s.handle_driver_request a req).replies.length = 1 := by
  cases req <;> rfl

theorem handle_contains_self (s : State) (a : ChanAlloc) (req : Request) :
    ((s.handle_driver_request a req).state.devices.find? req.dev_name).isSome
      = true := by
  cases req with
  | AddReadonlyDevice n c =>
      cases hf : s.devices.find? n with
      | some e =>
          show ((s.devices.insert_ro_device a n).2.1.find? n).isSome = true
          simp [DeviceMap.insert_ro_device, hf]
      | none =>
          have htx : (s.devices.insert_ro_device a n).1 = some ⟨a.next, 20⟩ := by
            simp [DeviceMap.insert_ro_device, hf, broadcast_channel]
          show ((s.devices.insert_ro_device a n).2.1.find? n).isSome = true
          rw [insert_ro_success_find s.devices a n _ htx]
          rfl
  | AddReadWriteDevice n c =>
      cases hf : s.devices.find? n with
      | some e =>
          show ((s.devices.insert_rw_device a n).2.1.find? n).isSome = true
          simp [DeviceMap.insert_rw_device, hf]
      | none =>
          have hp : (s.devices.insert_rw_device a n).1
              = some (⟨a.next, 20⟩, ⟨a.next + 1, 20⟩) := by
            simp [DeviceMap.insert_rw_device, hf, broadcast_channel,
              mpsc_channel]
          show ((s.devices.insert_rw_device a n).2.1.find? n).isSome = true
          obtain ⟨txs, hfind, _⟩ :=
            insert_rw_success_find s.devices a n _ hp
          rw [hfind]
          rfl

theorem handle_preserves_entry (s : State) (a : ChanAlloc) (req : Request)
    (k : String) (e : Entry) (h : s.devices.find? k = some e) :
    (s.handle_driver_request a req).state.devices.find? k = some e := by
  cases req with
  | AddReadonlyDevice n c => exact insert_ro_preserves s.devices a n k e h
  | AddReadWriteDevice n c => exact insert_rw_preserves s.devices a n k e h

theorem handle_preserves_mem (s : State) (a : ChanAlloc) (req : Request)
    (n : String) (h : (s.devices.find? n).isSome = true) :
    ((s.handle_driver_request a req).state.devices.find? n).isSome = true := by
  obtain ⟨e, he⟩ := Option.isSome_iff_exists.mp h
  rw [handle_preserves_entry s a req n e he]
  rfl

theorem handle_error_of_mem (s : State) (a : ChanAlloc) (req : Request)
    (h : (s.devices.find? req.dev_name).isSome = true) :
    (s.handle_driver_request a req).replies
      = [req.errorReply req.dev_name] := by
  cases req with
  | AddReadonlyDevice n c =>
      obtain ⟨e, he⟩ := Option.isSome_iff_exists.mp h
      simp only [Request.dev_name] at he
      simp [State.handle_driver_request, DeviceMap.insert_ro_device, he,
        State.send_reply, Request.errorReply, Request.dev_name]
  | AddReadWriteDevice n c =>
      obtain ⟨e, he⟩ := Option.isSome_iff_exists.mp h
      simp only [Request.dev_name] at he
      simp [State.handle_driver_request, DeviceMap.insert_rw_device, he,
        State.send_reply, Request.errorReply, Request.dev_name]

theorem handle_success_of_fresh (s : State) (a : ChanAlloc) (req : Request)
    (h : s.devices.find? req.dev_name = none) :
    ∃ p, (s.handle_driver_request a req).replies = [p]
      ∧ p.isSuccess = true := by
  cases req with
  | AddReadonlyDevice n c =>
      simp only [Request.dev_name] at h
      refine ⟨Reply.ro (.ok ⟨a.next, 20⟩), ?_, rfl⟩
      simp [State.handle_driver_request, DeviceMap.insert_ro_device, h,
        broadcast_channel, State.send_reply]
  | AddReadWriteDevice n c =>
      simp only [Request.dev_name] at h
      refine ⟨Reply.rw (.ok (⟨a.next, 20⟩, ⟨a.next + 1, 20⟩)), ?_, rfl⟩
      simp [State.handle_driver_request, DeviceMap.insert_rw_device, h,
        broadcast_channel, mpsc_channel, State.send_reply]

theorem handle_find_other (s : State) (a : ChanAlloc) (req : Request)
    (k : String) (hk : k ≠ req.dev_name) :
    (s.handle_driver_request a req).state.devices.find? k
      = s.devices.find? k := by
  cases req with
  | AddReadonlyDevice n c =>
      cases hf : s.devices.find? n with
      | some e =>
          show (s.devices.insert_ro_device a n).2.1.find? k = _
          simp [DeviceMap.insert_ro_device, hf]
      | none =>
          have hent : (s.devices.insert_ro_device a n).2.1.entries
              = s.devices.entries
                ++ [(n, ((⟨a.next, 20⟩ : TxDeviceValue).clone, none))] := by
            simp [DeviceMap.insert_ro_device, hf, broadcast_channel]
          show (s.devices.insert_ro_device a n).2.1.find? k = _
          rw [DeviceMap.find?, hent]
          exact findList_append_other s.devices.entries n k _ hk
  | AddReadWriteDevice n c =>
      cases hf : s.devices.find? n with
      | some e =>
          show (s.devices.insert_rw_device a n).2.1.find? k = _
          simp [DeviceMap.insert_rw_device, hf]
      | none =>
          have hent : (s.devices.insert_rw_device a n).2.1.entries
              = s.devices.entries
                ++ [(n, ((⟨a.next, 20⟩ : TxDeviceValue).clone,
                      some (⟨a.next + 1, 20⟩ : TxDeviceSetting)))] := by
            simp [DeviceMap.insert_rw_device, hf, broadcast_channel,
              mpsc_channel]
          show (s.devices.insert_rw_device a n).2.1.find? k = _
          rw [DeviceMap.find?, hent]
          exact findList_append_other s.devices.entries n k _ hk

/-! ### C7: exactly one reply per request; reply failure is non-fatal -/

/-- C7: handling any request attempts exactly one send on the request's
one-shot reply channel — the endpoints on success, the
device-already-defined error naming the device on a duplicate; the
warning flag is set exactly when the requester is gone, and neither the
resulting registry state, nor the allocator, nor the reply value depends
on whether the requester is still there, so a failed delivery changes
nothing else. -/
theorem reply_exactly_once (s : State) (a : ChanAlloc) (req : Request) :
    ((s.handle_driver_request a req).replies.length = 1)
    ∧ ((s.devices.find? req.dev_name).isSome = true →
        (s.handle_driver_request a req).replies
          = [req.errorReply req.dev_name])
    ∧ (s.devices.find? req.dev_name = none →
        ∃ p, (s.handle_driver_request a req).replies = [p]
          ∧ p.isSuccess = true)
    ∧ ((s.handle_driver_request a req).delivered = req.rpy_chan.alive)
    ∧ ((s.handle_driver_request a req).warned = !req.rpy_chan.alive)
    ∧ (∀ c : OneshotSender,
        (s.handle_driver_request a (req.withChan c)).state
            = (s.handle_driver_request a req).state
        ∧ (s.handle_driver_request a (req.withChan c)).alloc
            = (s.handle_driver_request a req).alloc
        ∧ (s.handle_driver_request a (req.withChan c)).replies
            = (s.handle_driver_request a req).replies) := by
  refine ⟨handle_replies_length s a req,
    handle_error_of_mem s a req,
    handle_success_of_fresh s a req, ?_, ?_, ?_⟩
  · cases req <;> rfl
  · cases req <;> rfl
  · intro c
    cases req <;> exact ⟨rfl, rfl, rfl⟩

theorem reply_exactly_once_witness :
    ((State.create.handle_driver_request ⟨0⟩
        (.AddReadonlyDevice nm1 ⟨false⟩)).replies.length = 1)
    ∧ (State.create.devices.find? nm1 = none)
    ∧ (∃ p, (State.create.handle_driver_request ⟨0⟩
          (.AddReadonlyDevice nm1 ⟨false⟩)).replies = [p]
        ∧ p.isSuccess = true)
    ∧ ((State.create.handle_driver_request ⟨0⟩
          (.AddReadonlyDevice nm1 ⟨false⟩)).warned = true)
    ∧ ((State.create.handle_driver_request ⟨0⟩
          (.AddReadonlyDevice nm1 ⟨true⟩)).state
        = (State.create.handle_driver_request ⟨0⟩
            (.AddReadonlyDevice nm1 ⟨false⟩)).state) :=
  ⟨(reply_exactly_once State.create ⟨0⟩ (.AddReadonlyDevice nm1 ⟨false⟩)).1,
   rfl,
   (reply_exactly_once State.create ⟨0⟩
      (.AddReadonlyDevice nm1 ⟨false⟩)).2.2.1 rfl,
   (reply_exactly_once State.create ⟨0⟩
      (.AddReadonlyDevice nm1 ⟨false⟩)).2.2.2.2.1,
   ((reply_exactly_once State.create ⟨0⟩
      (.AddReadonlyDevice nm1 ⟨false⟩)).2.2.2.2.2 ⟨true⟩).1⟩

/-! ### C9: registrations of distinct names never interfere -/

/-- C9: from any state in which neither name is registered, handling two
registration requests for distinct names one after the other — of either
kind and in either order, since the requests are universally
quantified — makes both replies successes. -/
theorem distinct_names_both_succeed (s : State) (a : ChanAlloc)
    (r1 r2 : Request) (hne : r2.dev_name ≠ r1.dev_name)
    (h1 : s.devices.find? r1.dev_name = none)
    (h2 : s.devices.find? r2.dev_name = none) :
    (∃ p1, (s.handle_driver_request a r1).replies = [p1]
      ∧ p1.isSuccess = true)
    ∧ (∃ p2, ((s.handle_driver_request a r1).state.handle_driver_request
          (s.handle_driver_request a r1).alloc r2).replies = [p2]
        ∧ p2.isSuccess = true) := by
  refine ⟨handle_success_of_fresh s a r1 h1, ?_⟩
  have h2s : (s.handle_driver_request a r1).state.devices.find? r2.dev_name
      = none := by
    rw [handle_find_other s a r1 r2.dev_name hne]
    exact h2
  exact handle_success_of_fresh _ _ r2 h2s

theorem distinct_names_both_succeed_witness :
    (nm2 ≠ nm1)
    ∧ (∃ p1, (State.create.handle_driver_request ⟨0⟩
          (.AddReadonlyDevice nm1 ⟨true⟩)).replies = [p1]
        ∧ p1.isSuccess = true)
    ∧ (∃ p2, ((State.create.handle_driver_request ⟨0⟩
            (.AddReadonlyDevice nm1 ⟨true⟩)).state.handle_driver_request
          (State.create.handle_driver_request ⟨0⟩
            (.AddReadonlyDevice nm1 ⟨true⟩)).alloc
          (.AddReadWriteDevice nm2 ⟨true⟩)).replies = [p2]
        ∧ p2.isSuccess = true) :=
  ⟨by decide,
   (distinct_names_both_succeed State.create ⟨0⟩
      (.AddReadonlyDevice nm1 ⟨true⟩) (.AddReadWriteDevice nm2 ⟨true⟩)
      (by decide) rfl rfl).1,
   (distinct_names_both_succeed State.create ⟨0⟩
      (.AddReadonlyDevice nm1 ⟨true⟩) (.AddReadWriteDevice nm2 ⟨true⟩)
      (by decide) rfl rfl).2⟩

/-! ### C8: the run loop exits only on the closed inbound channel -/

/-- C8: one iteration of the run loop terminates exactly when the receive
observes the closed condition (no pending request and no remaining
senders); in that case it returns `Ok(())`, and a whole run over any
request sequence ends with `Ok(())`. -/
theorem run_terminates_iff_closed :
    (∀ (s : State) (a : ChanAlloc) (ev : State.RecvEvent),
        (∃ res, State.run_step s a ev = State.StepOutcome.terminated res)
          ↔ ev = State.RecvEvent.closed)
    ∧ (∀ (s : State) (a : ChanAlloc),
        State.run_step s a State.RecvEvent.closed
          = State.StepOutcome.terminated (.ok ()))
    ∧ (∀ (s : State) (a : ChanAlloc) (reqs : List Request),
        (State.run s a reqs).2.2.2 = .ok ()) := by
  refine ⟨fun s a ev => ⟨?_, ?_⟩, fun s a => rfl, fun s a reqs => ?_⟩
  · rintro ⟨res, hres⟩
    cases ev with
    | received req => simp [State.run_step] at hres
    | closed => rfl
  · rintro rfl
    exact ⟨.ok (), rfl⟩
  · induction reqs generalizing s a with
    | nil => rfl
    | cons req rest ih => simp [State.run, ih]

/-- Request sequence exercising the run loop and the lifetime claim: the
same name is registered read-only, then again read-write. -/
def reqsW : List Request :=
  [.AddReadonlyDevice nm1 ⟨true⟩, .AddReadWriteDevice nm1 ⟨true⟩]

theorem run_terminates_iff_closed_witness :
    (State.run_step State.create ⟨0⟩ State.RecvEvent.closed
      = State.StepOutcome.terminated (.ok ()))
    ∧ ((State.run State.create ⟨0⟩ reqsW).2.2.2 = .ok ()) :=
  ⟨run_terminates_iff_closed.2.1 State.create ⟨0⟩,
   run_terminates_iff_closed.2.2 State.create ⟨0⟩ reqsW⟩

/-! ### C1: at most one registration of a name ever succeeds -/

theorem replyTrace_cons (s : State) (a : ChanAlloc) (req : Request)
    (rest : List Request) :
    replyTrace s a (req :: rest)
      = (s.handle_driver_request a req).replies
        ++ replyTrace (s.handle_driver_request a req).state
            (s.handle_driver_request a req).alloc rest := rfl

theorem trace_error_of_mem (reqs : List Request) :
    ∀ (s : State) (a : ChanAlloc) (n : String),
      (s.devices.find? n).isSome = true →
      ∀ (j : Nat) (rj : Request), reqs[j]? = some rj → rj.dev_name = n →
        (replyTrace s a reqs)[j]? = some (rj.errorReply n) := by
  induction reqs with
  | nil =>
      intro s a n _ j rj hj _
      simp at hj
  | cons req rest ih =>
      intro s a n hmem j rj hj hname
      obtain ⟨p, hp⟩ := handle_replies_singleton s a req
      cases j with
      | zero =>
          have hreq : req = rj := by simpa using hj
          have hn' : req.dev_name = n := by rw [hreq]; exact hname
          have herr := handle_error_of_mem s a req (by rw [hn']; exact hmem)
          have hpe : p = req.errorReply req.dev_name := by
            simpa using hp.symm.trans herr
          rw [replyTrace_cons, hp]
          show (p :: replyTrace _ _ rest)[0]? = some (rj.errorReply n)
          rw [List.getElem?_cons_zero]
          rw [hpe, hn', hreq]
      | succ j' =>
          have hj' : rest[j']? = some rj := by simpa using hj
          rw [replyTrace_cons, hp]
          show (p :: replyTrace _ _ rest)[j' + 1]? = some (rj.errorReply n)
          rw [List.getElem?_cons_succ]
          exact ih _ _ n (handle_preserves_mem s a req n hmem) j' rj hj' hname

theorem trace_error_after_attempt (reqs : List Request) :
    ∀ (s : State) (a : ChanAlloc) (n : String) (i j : Nat), i < j →
      ∀ (ri rj : Request), reqs[i]? = some ri → reqs[j]? = some rj →
        ri.dev_name = n → rj.dev_name = n →
        (replyTrace s a reqs)[j]? = some (rj.errorReply n) := by
  induction reqs with
  | nil =>
      intro s a n i j _ ri rj hi _ _ _
      simp at hi
  | cons req rest ih =>
      intro s a n i j hij ri rj hi hj hni hnj
      obtain ⟨p, hp⟩ := handle_replies_singleton s a req
      obtain ⟨j', rfl⟩ : ∃ j', j = j' + 1 := ⟨j - 1, by omega⟩
      have hj' : rest[j']? = some rj := by simpa using hj
      rw [replyTrace_cons, hp]
      show (p :: replyTrace _ _ rest)[j' + 1]? = some (rj.errorReply n)
      rw [List.getElem?_cons_succ]
      cases i with
      | zero =>
          have hreq : req = ri := by simpa using hi
          have hn' : req.dev_name = n := by rw [hreq]; exact hni
          have hmem := handle_contains_self s a req
          rw [hn'] at hmem
          exact trace_error_of_mem rest _ _ n hmem j' rj hj' hnj
      | succ i' =>
          have hi' : rest[i']? = some ri := by simpa using hi
          exact ih _ _ n i' j' (by omega) ri rj hi' hj' hni hnj

/-- C1: over a whole run of the actor from its fresh state, once some
request for a name `n` has produced a successful registration, every
later request for `n` — of either kind — is answered with the
device-already-defined error for `n` on its reply channel, so at most one
registration of `n` ever succeeds. -/
theorem registration_at_most_once (reqs : List Request) (n : String)
    (i j : Nat) (hij : i < j) (ri rj : Request)
    (hri : reqs[i]? = some ri) (hrj : reqs[j]? = some rj)
    (hni : ri.dev_name = n) (hnj : rj.dev_name = n)
    (p : Reply) (_hp : (replyTrace State.create ⟨0⟩ reqs)[i]? = some p)
    (_hs : p.isSuccess = true) :
    (replyTrace State.create ⟨0⟩ reqs)[j]? = some (rj.errorReply n) :=
  trace_error_after_attempt reqs State.create ⟨0⟩ n i j hij ri rj
    hri hrj hni hnj

theorem registration_at_most_once_witness :
    ((0 : Nat) < 1)
    ∧ (reqsW[0]? = some (.AddReadonlyDevice nm1 ⟨true⟩))
    ∧ (reqsW[1]? = some (.AddReadWriteDevice nm1 ⟨true⟩))
    ∧ ((replyTrace State.create ⟨0⟩ reqsW)[0]?
        = some (Reply.ro (.ok ⟨0, 20⟩)))
    ∧ ((Reply.ro (.ok ⟨0, 20⟩)).isSuccess = true)
    ∧ ((replyTrace State.create ⟨0⟩ reqsW)[1]?
        = some ((Request.AddReadWriteDevice nm1
            (⟨true⟩ : OneshotSender)).errorReply nm1)) :=
  ⟨by decide, rfl, rfl, rfl, rfl,
   registration_at_most_once reqsW nm1 0 1 (by decide)
     (.AddReadonlyDevice nm1 ⟨true⟩) (.AddReadWriteDevice nm1 ⟨true⟩)
     rfl rfl rfl rfl (Reply.ro (.ok ⟨0, 20⟩)) rfl rfl⟩

/-! ### C10: no validation of device names -/

/-- C10: registration never inspects the name beyond key lookup — any
string not already a key, the empty string included, registers
successfully; the inserted entry is keyed by exactly that string, and
lookup distinguishes keys by exact string equality. -/
theorem no_name_validation (m : DeviceMap) (a : ChanAlloc) (name : String)
    (h : m.find? name = none) :
    ((m.insert_ro_device a name).1.isSome = true)
    ∧ ((m.insert_rw_device a name).1.isSome = true)
    ∧ (∀ k, (m.insert_ro_device a name).2.1.find? k
        = if k = name
          then some ((⟨a.next, 20⟩ : TxDeviceValue), none)
          else m.find? k)
    ∧ (∀ k, (m.insert_rw_device a name).2.1.find? k
        = if k = name
          then some ((⟨a.next, 20⟩ : TxDeviceValue),
                some (⟨a.next + 1, 20⟩ : TxDeviceSetting))
          else m.find? k) := by
  have hentro : (m.insert_ro_device a name).2.1.entries
      = m.entries
        ++ [(name, ((⟨a.next, 20⟩ : TxDeviceValue).clone, none))] := by
    simp [DeviceMap.insert_ro_device, h, broadcast_channel]
  have hentrw : (m.insert_rw_device a name).2.1.entries
      = m.entries
        ++ [(name, ((⟨a.next, 20⟩ : TxDeviceValue).clone,
              some (⟨a.next + 1, 20⟩ : TxDeviceSetting)))] := by
    simp [DeviceMap.insert_rw_device, h, broadcast_channel, mpsc_channel]
  refine ⟨?_, ?_, fun k => ?_, fun k => ?_⟩
  · simp [DeviceMap.insert_ro_device, h, broadcast_channel]
  · simp [DeviceMap.insert_rw_device, h, broadcast_channel, mpsc_channel]
  · by_cases hk : k = name
    · subst hk
      rw [if_pos rfl, DeviceMap.find?, hentro]
      exact findList_append_self m.entries k _ h
    · rw [if_neg hk, DeviceMap.find?, hentro]
      exact findList_append_other m.entries name k _ hk
  · by_cases hk : k = name
    · subst hk
      rw [if_pos rfl, DeviceMap.find?, hentrw]
      exact findList_append_self m.entries k _ h
    · rw [if_neg hk, DeviceMap.find?, hentrw]
      exact findList_append_other m.entries name k _ hk

/-- Names differing only in case, to exercise case-sensitive lookup. -/
def nmLower : String := "a"

def nmUpper : String := "A"

/-- A table holding only the lower-case name. -/
def mLower : DeviceMap := (DeviceMap.new.insert_ro_device ⟨0⟩ nmLower).2.1

theorem no_name_validation_witness :
    (DeviceMap.new.find? emptyName = none)
    ∧ ((DeviceMap.new.insert_ro_device ⟨0⟩ emptyName).1.isSome = true)
    ∧ ((DeviceMap.new.insert_rw_device ⟨0⟩ emptyName).1.isSome = true)
    ∧ (mLower.find? nmUpper = none)
    ∧ ((mLower.insert_ro_device ⟨1⟩ nmUpper).1.isSome = true)
    ∧ ((mLower.insert_ro_device ⟨1⟩ nmUpper).2.1.find? nmLower
        = mLower.find? nmLower) :=
  ⟨rfl,
   (no_name_validation DeviceMap.new ⟨0⟩ emptyName rfl).1,
   (no_name_validation DeviceMap.new ⟨0⟩ emptyName rfl).2.1,
   rfl,
   (no_name_validation mLower ⟨1⟩ nmUpper rfl).1,
   by
     have hval := (no_name_validation mLower ⟨1⟩ nmUpper rfl).2.2.1 nmLower
     rw [if_neg (by decide)] at hval
     exact hval⟩

end DrMem
